import Mathlib

/-!
Verification development for the idb input-event core: the stream bridge
(`StreamTouchCommand` in `idb/cli/commands/hid.py`), the key commands,
the video stream configuration builder (`idb/cli/commands/video.py`),
and the swipe interpolation contract.

Python-boundary functions (`str.strip`, `json.loads`, `float`, `int`)
are modelled explicitly so that the per-line processing pipeline of the
bridge can be stated and executed on concrete feed lines.
-/

/-- ASCII whitespace recognised by Python `str.strip` (the unicode
whitespace classes beyond ASCII are not modelled). -/
def isPyWs (c : Char) : Bool :=
  c = ' ' || c = '\t' || c = '\n' || c = '\r' || c = '\x0b' || c = '\x0c'

/-- Model of Python `str.strip()`: drop leading and trailing whitespace. -/
def pyStrip (s : String) : String :=
  String.mk (((s.data.dropWhile isPyWs).reverse.dropWhile isPyWs).reverse)

/-- Whitespace accepted between JSON tokens. -/
def isJsonWs (c : Char) : Bool :=
  c = ' ' || c = '\t' || c = '\n' || c = '\r'

/-- Skip JSON inter-token whitespace. -/
def skipWs (cs : List Char) : List Char :=
  cs.dropWhile isJsonWs

/-- Numeric value of a list of decimal digit characters. -/
def digitsVal (ds : List Char) : Nat :=
  ds.foldl (fun a c => a * 10 + (c.toNat - 48)) 0

/-- Rational value of an unsigned decimal literal: integer digits,
fraction digits and a decimal exponent, as
`mantissa * 10 ^ (e - fracs.length)`. -/
def ratOfParts (ints fracs : List Char) (e : Int) : ℚ :=
  let mant : Int := (digitsVal ints * 10 ^ fracs.length + digitsVal fracs : ℕ)
  let shift : Int := e - fracs.length
  if 0 ≤ shift then mkRat (mant * 10 ^ shift.toNat) 1
  else mkRat mant (10 ^ (-shift).toNat)

/-- Parse an optional JSON fraction part `.digits`; a bare dot is a
syntax error. Returns the fraction digits and the rest. -/
def parseFracPart : List Char → Option (List Char × List Char)
  | '.' :: r =>
    let p := r.span Char.isDigit
    if p.1.isEmpty then none else some (p.1, p.2)
  | cs => some ([], cs)

/-- Read a nonempty digit group and return its value with the rest. -/
def expDigits (cs : List Char) : Option (Nat × List Char) :=
  let p := cs.span Char.isDigit
  if p.1.isEmpty then none else some (digitsVal p.1, p.2)

/-- Parse an optional exponent part `[eE][+-]?digits`. Returns the signed
exponent and the rest. -/
def parseExpPart : List Char → Option (Int × List Char)
  | [] => some (0, [])
  | c :: r =>
    if c = 'e' || c = 'E' then
      match r with
      | '+' :: r2 => (expDigits r2).map (fun p => ((p.1 : Int), p.2))
      | '-' :: r2 => (expDigits r2).map (fun p => (-(p.1 : Int), p.2))
      | _ => (expDigits r).map (fun p => ((p.1 : Int), p.2))
    else some (0, c :: r)

/-- Parse an unsigned JSON number `digits(.digits)?(exp)?`. -/
def parseUnsignedNum (cs : List Char) : Option (ℚ × List Char) :=
  let ip := cs.span Char.isDigit
  if ip.1.isEmpty then none
  else
    match parseFracPart ip.2 with
    | none => none
    | some (fracs, cs3) =>
      match parseExpPart cs3 with
      | none => none
      | some (e, cs4) => some (ratOfParts ip.1 fracs e, cs4)

/-- Parse a JSON number at the head of the input: `-?digits(.digits)?(exp)?`. -/
def parseJsonNumber : List Char → Option (ℚ × List Char)
  | '-' :: r => (parseUnsignedNum r).map (fun p => (-p.1, p.2))
  | cs => parseUnsignedNum cs

/-- JSON string escape characters. `\uXXXX` escapes are not modelled and
fail the parse. -/
def escChar (c : Char) : Option Char :=
  if c = '"' then some '"'
  else if c = '\\' then some '\\'
  else if c = '/' then some '/'
  else if c = 'n' then some '\n'
  else if c = 't' then some '\t'
  else if c = 'r' then some '\r'
  else if c = 'b' then some (Char.ofNat 8)
  else if c = 'f' then some (Char.ofNat 12)
  else none

/-- Parse the body of a JSON string after the opening quote, up to and
including the closing quote. Raw control characters are rejected. -/
def parseStrChars : List Char → Option (List Char × List Char)
  | [] => none
  | '"' :: rest => some ([], rest)
  | '\\' :: rest =>
    match rest with
    | [] => none
    | e :: rest' =>
      match escChar e, parseStrChars rest' with
      | some c, some (cs, r) => some (c :: cs, r)
      | _, _ => none
  | c :: rest =>
    if c.toNat < 32 then none
    else
      match parseStrChars rest with
      | some (cs, r) => some (c :: cs, r)
      | none => none

/-- JSON values as produced by Python `json.loads`: objects keep their
fields in textual order (later duplicates shadow earlier ones, as in a
Python dict built by successive assignment). -/
inductive Json where
  | null
  | bool (b : Bool)
  | num (q : ℚ)
  | str (s : String)
  | arr (elems : List Json)
  | obj (fields : List (String × Json))

/-- The five entry points of the recursive-descent JSON grammar at one
fuel level: value, object body, object members, array body, array
elements. Bundled in a structure so the fuel recursion is structural
(and therefore kernel-reducible on concrete feed lines). -/
structure ParserPack where
  val : List Char → Option (Json × List Char)
  objBody : List Char → Option (Json × List Char)
  members : List Char → Option (List (String × Json) × List Char)
  arrBody : List Char → Option (Json × List Char)
  elems : List Char → Option (List Json × List Char)

/-- Fuel-indexed recursive-descent JSON grammar; each level calls the
previous level for nested constructs. -/
def parseFns : Nat → ParserPack
  | 0 => ⟨fun _ => none, fun _ => none, fun _ => none, fun _ => none,
          fun _ => none⟩
  | f + 1 =>
    let P := parseFns f
    { val := fun cs =>
        match skipWs cs with
        | [] => none
        | c :: rest =>
          if c = 'n' then
            match rest with
            | 'u' :: 'l' :: 'l' :: r => some (.null, r)
            | _ => none
          else if c = 't' then
            match rest with
            | 'r' :: 'u' :: 'e' :: r => some (.bool true, r)
            | _ => none
          else if c = 'f' then
            match rest with
            | 'a' :: 'l' :: 's' :: 'e' :: r => some (.bool false, r)
            | _ => none
          else if c = '"' then
            match parseStrChars rest with
            | some (cs', r) => some (.str (String.mk cs'), r)
            | none => none
          else if c = '\x7b' then P.objBody (skipWs rest)
          else if c = '[' then P.arrBody (skipWs rest)
          else (parseJsonNumber (c :: rest)).map (fun p => (Json.num p.1, p.2)),
      objBody := fun cs =>
        match cs with
        | '\x7d' :: r => some (.obj [], r)
        | _ => (P.members cs).map (fun p => (Json.obj p.1, p.2)),
      members := fun cs =>
        match cs with
        | '"' :: rest =>
          match parseStrChars rest with
          | none => none
          | some (k, r1) =>
            match skipWs r1 with
            | ':' :: r2 =>
              match P.val r2 with
              | none => none
              | some (v, r3) =>
                match skipWs r3 with
                | ',' :: r4 =>
                  (P.members (skipWs r4)).map
                    (fun p => ((String.mk k, v) :: p.1, p.2))
                | '\x7d' :: r4 => some ([(String.mk k, v)], r4)
                | _ => none
            | _ => none
        | _ => none,
      arrBody := fun cs =>
        match cs with
        | ']' :: r => some (.arr [], r)
        | _ => (P.elems cs).map (fun p => (Json.arr p.1, p.2)),
      elems := fun cs =>
        match P.val cs with
        | none => none
        | some (v, r) =>
          match skipWs r with
          | ',' :: r2 => (P.elems r2).map (fun p => (v :: p.1, p.2))
          | ']' :: r2 => some ([v], r2)
          | _ => none }

/-- Parse one JSON value with the given fuel. -/
def parseVal (fuel : Nat) (cs : List Char) : Option (Json × List Char) :=
  (parseFns fuel).val cs

/-- Model of Python `json.loads` on one feed line: parse a single value,
allowing surrounding whitespace, and reject trailing data. -/
def jsonLoads (s : String) : Option Json :=
  match parseVal (2 * s.length + 8) s.data with
  | some (j, r) => if (skipWs r).isEmpty then some j else none
  | none => none

/-- Field access on a decoded JSON object, with Python-dict semantics:
of duplicate keys the last occurrence wins. -/
def objGet (kvs : List (String × Json)) (k : String) : Option Json :=
  List.lookup k kvs.reverse

/-- The unsigned body of a Python float literal: digits with an
optional fraction and exponent (digit-group underscores and the
`inf`/`nan` spellings are not modelled). -/
def pyFloatBody (cs : List Char) : Option ℚ :=
  let ip := cs.span Char.isDigit
  let fp : List Char × List Char :=
    match ip.2 with
    | '.' :: r => r.span Char.isDigit
    | cs2 => ([], cs2)
  if ip.1.isEmpty && fp.1.isEmpty then none
  else
    match parseExpPart fp.2 with
    | none => none
    | some (e, cs4) =>
      if cs4.isEmpty then some (ratOfParts ip.1 fp.1 e) else none

/-- Model of Python `float(s)` on a string: optional surrounding
whitespace, optional sign, then a decimal literal consuming the whole
remainder. -/
def pyFloatOfString (s : String) : Option ℚ :=
  match (pyStrip s).data with
  | '-' :: r => (pyFloatBody r).map Neg.neg
  | '+' :: r => pyFloatBody r
  | cs => pyFloatBody cs

/-- Model of Python `float` applied to a JSON-decoded value. -/
def pyFloat : Json → Option ℚ
  | .num q => some q
  | .bool b => some (if b then 1 else 0)
  | .str s => pyFloatOfString s
  | _ => none

/-- Modelled from the spec: `Point` of `idb.common.types` (not under
`src/`), §3: an immutable pair of screen coordinates. -/
structure Point where
  x : ℚ
  y : ℚ
deriving DecidableEq

/-- Modelled from the spec: `HIDDirection` of `idb.common.types`, §3's
`Direction` enumeration. -/
inductive HIDDirection where
  | down
  | up
deriving DecidableEq

/-- Modelled from the spec: `HIDButtonType` of `idb.common.types`, §3's
closed enumeration of named hardware buttons. -/
inductive HIDButtonType where
  | home
  | lock
  | volumeUp
  | volumeDown
  | side
deriving DecidableEq

/-- Modelled from the spec: the `Action` variants of `idb.common.types`
(`HIDTouch`, `HIDButton`, `HIDKey`), §3. -/
inductive HIDAction where
  | touch (point : Point)
  | button (id : HIDButtonType)
  | key (keycode : Int)
deriving DecidableEq

/-- Modelled from the spec: `HIDEvent` of `idb.common.types`, §3's
`PrimitiveEvent`: a press transition or an explicit delay. -/
inductive HIDEvent where
  | press (action : HIDAction) (direction : HIDDirection)
  | delay (duration : ℚ)
deriving DecidableEq

/-- Whether a primitive event is a press transition. -/
def HIDEvent.isPress : HIDEvent → Bool
  | .press _ _ => true
  | .delay _ => false

/-- Model of `StreamTouchCommand.convert_touch_event_to_hid` (hid.py 219-242):
check the required fields, coerce `x` and `y` with `float`, and map the
`type` through the direction map. A non-object argument raises in the
field-membership test or the indexing; every raising path is modelled as
`Except.error`, which the caller catches and skips. -/
def convertTouchEventToHid (event : Json) : Except String HIDEvent :=
  match event with
  | .obj kvs =>
    if (objGet kvs "type").isSome && (objGet kvs "x").isSome
        && (objGet kvs "y").isSome then
      match pyFloat ((objGet kvs "x").getD .null),
            pyFloat ((objGet kvs "y").getD .null) with
      | some qx, some qy =>
        match objGet kvs "type" with
        | some (.str t) =>
          if t = "touch_start" then
            .ok (.press (.touch ⟨qx, qy⟩) .down)
          else if t = "touch_move" then
            .ok (.press (.touch ⟨qx, qy⟩) .down)
          else if t = "touch_end" then
            .ok (.press (.touch ⟨qx, qy⟩) .up)
          else .error "unknown touch event type"
        | _ => .error "unknown touch event type"
      | _, _ => .error "coordinate is not coercible to float"
    else .error "missing required fields in event"
  | _ => .error "event is not an object"

/-- Diagnostics the bridge records on its logger while reading. -/
inductive Diag where
  | invalidJson
  | failedConvert
  | readError
deriving DecidableEq

/-- One iteration's worth of the per-line body of
`read_touch_events_from_stdin` (hid.py 196-213), for a non-EOF line:
strip; skip silently when blank; otherwise parse and convert, yielding
either an event or a warning diagnostic. -/
def processLine (s : String) : Option HIDEvent × Option Diag :=
  let t := pyStrip s
  if t = "" then (none, none)
  else
    match jsonLoads t with
    | none => (none, some .invalidJson)
    | some j =>
      match convertTouchEventToHid j with
      | .error _ => (none, some .failedConvert)
      | .ok e => (some e, none)

/-- One result of the blocking `sys.stdin.readline` call: a returned
line (the empty string signals EOF) or a raised read fault. -/
inductive ReadItem where
  | line (s : String)
  | fault
deriving DecidableEq

/-- How a bridge run ended: clean EOF, a read fault, or the finite model
feed ran out while the real loop would still be awaiting input. -/
inductive BridgeExit where
  | closedEof
  | closedFault
  | ranOut
deriving DecidableEq

/-- The observable outcome of one bridge run: the events yielded to the
transport in order, the diagnostics recorded in order, and how the loop
ended. The generator itself returns normally in every case. -/
structure BridgeResult where
  events : List HIDEvent
  diags : List Diag
  exit : BridgeExit
deriving DecidableEq

/-- Model of `StreamTouchCommand.read_touch_events_from_stdin` (hid.py 182-217)
run over a finite prefix of read results: EOF breaks cleanly, a read
fault logs an error and breaks, a blank line is skipped silently, and
every other line contributes its `processLine` event or diagnostic. -/
def runBridge : List ReadItem → BridgeResult
  | [] => ⟨[], [], .ranOut⟩
  | .fault :: _ => ⟨[], [.readError], .closedFault⟩
  | .line s :: rest =>
    if s = "" then ⟨[], [], .closedEof⟩
    else
      let p := processLine s
      let r := runBridge rest
      ⟨p.1.toList ++ r.events, p.2.toList ++ r.diags, r.exit⟩

/-- A finite feed of lines followed by end-of-input. -/
def mkFeed (lines : List String) : List ReadItem :=
  lines.map .line ++ [.line ""]

/-- Model of Python `int(s)` on a CLI token: optional surrounding
whitespace, an optional sign, then decimal digits (digit-group
underscores are not modelled). -/
def pyIntOfString (s : String) : Option Int :=
  let cs := (pyStrip s).data
  let sp : Bool × List Char :=
    match cs with
    | '-' :: r => (true, r)
    | '+' :: r => (false, r)
    | _ => (false, cs)
  let p := sp.2.span Char.isDigit
  if p.1.isEmpty || !p.2.isEmpty then none
  else some (if sp.1 then -(digitsVal p.1 : Int) else (digitsVal p.1 : Int))

/-- The client calls the key commands can issue. -/
inductive ClientCall where
  | key (keycode : Int) (duration : Option ℚ)
  | keySequence (codes : List Int)
deriving DecidableEq

/-- Model of `KeyCommand` (hid.py 63-78): argparse converts the positional `key`
token with `int`, and `run_with_client` forwards it unchanged to
`client.key`. -/
def keyCommandRun (tok : String) (duration : Option ℚ) : Option ClientCall :=
  (pyIntOfString tok).map (fun k => ClientCall.key k duration)

/-- Model of `KeySequenceCommand` (hid.py 81-99): the space-separated tokens are
mapped through `int` and forwarded to `client.key_sequence`. -/
def keySequenceCommandRun (toks : List String) : Option ClientCall :=
  (toks.mapM pyIntOfString).map ClientCall.keySequence

/-- A value stored in the video stream configuration dict or as an
argparse namespace attribute. -/
inductive CVal where
  | noneV
  | int (n : Int)
  | float (q : ℚ)
  | str (s : String)
  | bool (b : Bool)
deriving DecidableEq

/-- The argparse namespace for `video-stream` (video.py 55-134): one
attribute per declared option, with argparse's dash-to-underscore
attribute naming. -/
structure VideoArgs where
  fps : Option Int
  format : String
  compression_quality : ℚ
  scale_factor : ℚ
  keyframe_interval : Int
  profile : String
  max_bitrate : Int
  buffer_size : Int
  no_b_frames : Bool
  realtime_optimization : Bool
  preset : Option String
  output_file : Option String

/-- The attribute names that exist on the parsed namespace (what Python
`hasattr` tests against). -/
def nsAttrNames : List String :=
  ["fps", "format", "compression_quality", "scale_factor",
   "keyframe_interval", "profile", "max_bitrate", "buffer_size",
   "no_b_frames", "realtime_optimization", "preset", "output_file"]

/-- An optional CLI integer as a namespace value. -/
def cvalOfOptInt : Option Int → CVal
  | none => .noneV
  | some n => .int n

/-- Model of `getattr(args, name)` for the names in `nsAttrNames`; only reached
under a successful `hasattr` test. -/
def nsGet (a : VideoArgs) : String → CVal
  | "fps" => cvalOfOptInt a.fps
  | "format" => .str a.format
  | "compression_quality" => .float a.compression_quality
  | "scale_factor" => .float a.scale_factor
  | "keyframe_interval" => .int a.keyframe_interval
  | "profile" => .str a.profile
  | "max_bitrate" => .int a.max_bitrate
  | "buffer_size" => .int a.buffer_size
  | "no_b_frames" => .bool a.no_b_frames
  | "realtime_optimization" => .bool a.realtime_optimization
  | _ => .noneV

/-- Model of `key.replace('_', '-')` on an option key. -/
def underToHyphen (s : String) : String :=
  String.mk (s.data.map (fun c => if c = '_' then '-' else c))

/-- Model of `config.get(k)` on an insertion-ordered dict (Python's default of
`None` is `CVal.noneV`). -/
def dictGet (d : List (String × CVal)) (k : String) : CVal :=
  (List.lookup k d).getD .noneV

/-- Model of `d[k] = v` on an insertion-ordered dict: update the (unique) entry
in place when the key exists, append otherwise. -/
def dictSet : List (String × CVal) → String → CVal → List (String × CVal)
  | [], k, v => [(k, v)]
  | p :: rest, k, v =>
    if p.1 = k then (k, v) :: rest else p :: dictSet rest k v

/-- The initial `config` dict of `_build_stream_config`
(video.py 163-174), in insertion order. -/
def initialConfig (a : VideoArgs) : List (String × CVal) :=
  [("fps", cvalOfOptInt a.fps),
   ("format", .str a.format),
   ("compression_quality", .float a.compression_quality),
   ("scale_factor", .float a.scale_factor),
   ("keyframe_interval", .int a.keyframe_interval),
   ("h264_profile", .str a.profile),
   ("max_bitrate", .int a.max_bitrate),
   ("buffer_size", .int a.buffer_size),
   ("allow_frame_reordering", .bool (!a.no_b_frames)),
   ("realtime_optimization", .bool a.realtime_optimization)]

/-- The `preset_configs` dicts of `_build_stream_config`
(video.py 178-209), in insertion order. -/
def presetConfig : String → List (String × CVal)
  | "streaming" =>
    [("fps", .int 30), ("keyframe_interval", .int 30),
     ("h264_profile", .str "baseline"), ("max_bitrate", .int 4000),
     ("buffer_size", .int 2000), ("compression_quality", .float (mkRat 4 5)),
     ("allow_frame_reordering", .bool false),
     ("realtime_optimization", .bool true)]
  | "low-latency" =>
    [("fps", .int 60), ("keyframe_interval", .int 15),
     ("h264_profile", .str "baseline"), ("max_bitrate", .int 6000),
     ("buffer_size", .int 1000), ("compression_quality", .float (mkRat 7 10)),
     ("allow_frame_reordering", .bool false),
     ("realtime_optimization", .bool true)]
  | "high-quality" =>
    [("fps", .int 30), ("keyframe_interval", .int 60),
     ("h264_profile", .str "high"), ("max_bitrate", .int 8000),
     ("buffer_size", .int 4000), ("compression_quality", .float (mkRat 9 10)),
     ("allow_frame_reordering", .bool false),
     ("realtime_optimization", .bool true)]
  | _ => []

/-- One iteration of the preset-override loop (video.py 214-216): the
guard `not hasattr(args, key.replace('_','-')) or getattr(args,
key.replace('_','-')) == config.get(key)` decides whether the preset
value is written. -/
def applyPresetEntry (a : VideoArgs) (cfg : List (String × CVal))
    (kv : String × CVal) : List (String × CVal) :=
  if underToHyphen kv.1 ∉ nsAttrNames
      ∨ nsGet a (underToHyphen kv.1) = dictGet cfg kv.1 then
    dictSet cfg kv.1 kv.2
  else cfg

/-- Model of `VideoStreamCommand._build_stream_config` (video.py 161-218). -/
def buildStreamConfig (a : VideoArgs) : List (String × CVal) :=
  let config := initialConfig a
  match a.preset with
  | some p =>
    if p ∈ ["streaming", "low-latency", "high-quality"] then
      (presetConfig p).foldl (applyPresetEntry a) config
    else config
  | none => config

/-- A point in the swipe interpolation geometry, over the reals. -/
structure SwipePoint where
  x : ℝ
  y : ℝ

/-- Modelled from the spec: the Euclidean distance of §4.3; the swipe
interpolator itself lives in the delivery client behind `client.swipe`
and is not under `src/`. -/
noncomputable def swipeDistance (s e : SwipePoint) : ℝ :=
  Real.sqrt ((e.x - s.x) ^ 2 + (e.y - s.y) ^ 2)

/-- Linear interpolation between two points at parameter `t`. -/
noncomputable def swipeLerp (s e : SwipePoint) (t : ℝ) : SwipePoint :=
  ⟨s.x + t * (e.x - s.x), s.y + t * (e.y - s.y)⟩

/-- Modelled from the spec: the swipe interpolator of §4.3 and §8 (the
implementation behind `client.swipe` is not under `src/`): for distance
`d` and spacing `delta`, an empty sequence when `d ≤ delta` or
`delta ≤ 0`, otherwise the points of the stated formula
`start + t_i * (end - start)` with `t_i = i * delta / d`, restricted to
the strictly interior parameters `t_i < 1` as §4.3's responsibility and
§8's edge-case note require; those are exactly `i = 1 .. ⌈d/delta⌉ - 1`. -/
noncomputable def swipeInterpolate (s e : SwipePoint) (delta : ℝ) :
    List SwipePoint :=
  if swipeDistance s e ≤ delta ∨ delta ≤ 0 then []
  else
    (List.range (⌈swipeDistance s e / delta⌉₊ - 1)).map
      (fun (i : ℕ) => swipeLerp s e (((i : ℝ) + 1) * delta / swipeDistance s e))

/-- The decoded content of one valid touch line: its `type` string and
its numeric coordinates. -/
structure TouchSpec where
  tname : String
  x : ℚ
  y : ℚ

/-- The event the stream protocol of §4.4 and §6 prescribes for a
decoded touch line: `touch_start` and `touch_move` map to a DOWN press,
`touch_end` to an UP press, at the line's coordinates. -/
def specEvent (p : TouchSpec) : HIDEvent :=
  .press (.touch ⟨p.x, p.y⟩)
    (if p.tname = "touch_end" then .up else .down)

/-- The line (after stripping) decodes to a JSON object carrying a
recognised `type` and numeric `x` and `y` fields — the valid shape of
the line protocol in §6. -/
def LineParsesTo (s : String) (p : TouchSpec) : Prop :=
  ∃ kvs, jsonLoads (pyStrip s) = some (.obj kvs) ∧
    objGet kvs "type" = some (.str p.tname) ∧
    (p.tname = "touch_start" ∨ p.tname = "touch_move"
      ∨ p.tname = "touch_end") ∧
    objGet kvs "x" = some (.num p.x) ∧
    objGet kvs "y" = some (.num p.y)

/-- The decoded value has the named field (a non-object value lacks
every field). -/
def jsonHasField (j : Json) (k : String) : Prop :=
  ∃ kvs, j = .obj kvs ∧ (objGet kvs k).isSome

/-- A decoded line that the converter must reject: a required field is
missing, or the `type` value is not one of the three recognised touch
type strings. -/
def MalformedJson (j : Json) : Prop :=
  (¬ jsonHasField j "type" ∨ ¬ jsonHasField j "x" ∨ ¬ jsonHasField j "y")
    ∨ (∃ kvs v, j = .obj kvs ∧ objGet kvs "type" = some v ∧
        v ≠ .str "touch_start" ∧ v ≠ .str "touch_move"
          ∧ v ≠ .str "touch_end")

/-- A non-blank feed line that is a per-line fault: not valid JSON, or
valid JSON that the converter must reject. -/
def MalformedLine (s : String) : Prop :=
  pyStrip s ≠ "" ∧
  (jsonLoads (pyStrip s) = none ∨
    ∃ j, jsonLoads (pyStrip s) = some j ∧ MalformedJson j)

theorem jsonLoads_empty : jsonLoads "" = none := rfl

theorem strip_ne_of_loads {s : String} {j : Json}
    (h : jsonLoads (pyStrip s) = some j) : pyStrip s ≠ "" := by
  intro he
  rw [he, jsonLoads_empty] at h
  exact Option.noConfusion h

theorem line_ne_of_strip {s : String} (h : pyStrip s ≠ "") : s ≠ "" := by
  intro he
  subst he
  exact h rfl

theorem runBridge_cons_line {s : String} (h : s ≠ "") (rest : List ReadItem) :
    runBridge (.line s :: rest) =
      ⟨(processLine s).1.toList ++ (runBridge rest).events,
       (processLine s).2.toList ++ (runBridge rest).diags,
       (runBridge rest).exit⟩ := by
  simp [runBridge, h]

theorem runBridge_lines (ls : List String) (rest : List ReadItem)
    (h : ∀ l ∈ ls, l ≠ "") :
    runBridge (ls.map .line ++ rest) =
      ⟨ls.filterMap (fun s => (processLine s).1) ++ (runBridge rest).events,
       ls.filterMap (fun s => (processLine s).2) ++ (runBridge rest).diags,
       (runBridge rest).exit⟩ := by
  induction ls with
  | nil => simp
  | cons a ls ih =>
    have ha : a ≠ "" := h a (List.mem_cons_self a ls)
    rw [List.map_cons, List.cons_append,
        runBridge_cons_line ha (List.map ReadItem.line ls ++ rest),
        ih (fun l hl => h l (List.mem_cons_of_mem a hl))]
    cases hp : (processLine a).1 <;> cases hq : (processLine a).2 <;>
      simp [List.filterMap_cons, hp, hq]

theorem convert_ok_of_fields {kvs : List (String × Json)} {t : String}
    {vx vy : Json} {qx qy : ℚ}
    (ht : objGet kvs "type" = some (.str t))
    (htm : t = "touch_start" ∨ t = "touch_move" ∨ t = "touch_end")
    (hx : objGet kvs "x" = some vx) (hy : objGet kvs "y" = some vy)
    (hfx : pyFloat vx = some qx) (hfy : pyFloat vy = some qy) :
    convertTouchEventToHid (.obj kvs) =
      .ok (.press (.touch ⟨qx, qy⟩)
        (if t = "touch_end" then .up else .down)) := by
  simp only [convertTouchEventToHid, ht, hx, hy, Option.isSome_some,
    Bool.and_self, if_true, Option.getD_some, hfx, hfy]
  rcases htm with h | h | h <;> subst h <;> simp

theorem processLine_of_parses {s : String} {p : TouchSpec}
    (h : LineParsesTo s p) : processLine s = (some (specEvent p), none) := by
  obtain ⟨kvs, hload, ht, htm, hx, hy⟩ := h
  have hstrip : pyStrip s ≠ "" := strip_ne_of_loads hload
  unfold processLine
  rw [if_neg hstrip, hload]
  simp [convert_ok_of_fields ht htm hx hy rfl rfl, specEvent]

theorem convert_err_of_malformed {j : Json} (h : MalformedJson j) :
    ∃ msg, convertTouchEventToHid j = .error msg := by
  rcases h with hmiss | ⟨kvs, v, rfl, hv, h1, h2, h3⟩
  · cases j with
    | obj kvs =>
      rcases hmiss with h | h | h <;>
      · simp only [jsonHasField, not_exists, not_and] at h
        have hn := Option.not_isSome_iff_eq_none.mp (h kvs rfl)
        exact ⟨"missing required fields in event",
          by simp [convertTouchEventToHid, hn]⟩
    | null => exact ⟨_, rfl⟩
    | bool b => exact ⟨_, rfl⟩
    | num q => exact ⟨_, rfl⟩
    | str t => exact ⟨_, rfl⟩
    | arr es => exact ⟨_, rfl⟩
  · rcases hgx : objGet kvs "x" with _ | vx
    · exact ⟨"missing required fields in event",
        by simp [convertTouchEventToHid, hgx]⟩
    rcases hgy : objGet kvs "y" with _ | vy
    · exact ⟨"missing required fields in event",
        by simp [convertTouchEventToHid, hgx, hgy]⟩
    rcases hfx : pyFloat vx with _ | qx
    · exact ⟨"coordinate is not coercible to float", by
        cases v <;> simp [convertTouchEventToHid, hv, hgx, hgy, hfx]⟩
    rcases hfy : pyFloat vy with _ | qy
    · exact ⟨"coordinate is not coercible to float", by
        cases v <;> simp [convertTouchEventToHid, hv, hgx, hgy, hfx, hfy]⟩
    cases v with
    | str t =>
      have ht1 : t ≠ "touch_start" := fun he => h1 (by rw [he])
      have ht2 : t ≠ "touch_move" := fun he => h2 (by rw [he])
      have ht3 : t ≠ "touch_end" := fun he => h3 (by rw [he])
      exact ⟨"unknown touch event type", by
        simp [convertTouchEventToHid, hv, hgx, hgy, hfx, hfy, ht1, ht2, ht3]⟩
    | null =>
      exact ⟨"unknown touch event type",
        by simp [convertTouchEventToHid, hv, hgx, hgy, hfx, hfy]⟩
    | bool b =>
      exact ⟨"unknown touch event type",
        by simp [convertTouchEventToHid, hv, hgx, hgy, hfx, hfy]⟩
    | num q =>
      exact ⟨"unknown touch event type",
        by simp [convertTouchEventToHid, hv, hgx, hgy, hfx, hfy]⟩
    | arr es =>
      exact ⟨"unknown touch event type",
        by simp [convertTouchEventToHid, hv, hgx, hgy, hfx, hfy]⟩
    | obj kvs2 =>
      exact ⟨"unknown touch event type",
        by simp [convertTouchEventToHid, hv, hgx, hgy, hfx, hfy]⟩

theorem processLine_of_malformed {s : String} (h : MalformedLine s) :
    (processLine s).1 = none ∧ (processLine s).2.isSome := by
  obtain ⟨hstrip, hcase⟩ := h
  unfold processLine
  rw [if_neg hstrip]
  rcases hcase with hnone | ⟨j, hj, hm⟩
  · rw [hnone]
    exact ⟨rfl, rfl⟩
  · obtain ⟨msg, hmsg⟩ := convert_err_of_malformed hm
    simp [hj, hmsg]

/-- C1: for a feed whose every line decodes to a valid touch object
(recognised `type`, numeric `x` and `y`), the bridge emits exactly one
event per line, in line order — `touch_start`/`touch_move` as a DOWN
press and `touch_end` as an UP press at `(x, y)` — with no event
reordered, dropped, or duplicated. -/
theorem C1_stream_bridge_emits_in_order (lines : List String)
    (ps : List TouchSpec) (h : List.Forall₂ LineParsesTo lines ps) :
    (runBridge (mkFeed lines)).events = ps.map specEvent := by
  induction h with
  | nil => rfl
  | @cons a b l₁ l₂ h1 h2 ih =>
    have ha : a ≠ "" := by
      obtain ⟨kvs, hload, -⟩ := h1
      exact line_ne_of_strip (strip_ne_of_loads hload)
    rw [mkFeed, List.map_cons, List.cons_append, runBridge_cons_line ha,
        processLine_of_parses h1]
    simpa [mkFeed] using ih

/-- Witness: the spec's own three-line feed yields exactly the three
events, in order. -/
theorem C1_witness :
    (runBridge (mkFeed
      ["\x7b\"type\":\"touch_start\",\"x\":1,\"y\":2\x7d",
       "\x7b\"type\":\"touch_move\",\"x\":3,\"y\":4\x7d",
       "\x7b\"type\":\"touch_end\",\"x\":5,\"y\":6\x7d"])).events =
      [.press (.touch ⟨1, 2⟩) .down,
       .press (.touch ⟨3, 4⟩) .down,
       .press (.touch ⟨5, 6⟩) .up] :=
  (C1_stream_bridge_emits_in_order
    ["\x7b\"type\":\"touch_start\",\"x\":1,\"y\":2\x7d",
     "\x7b\"type\":\"touch_move\",\"x\":3,\"y\":4\x7d",
     "\x7b\"type\":\"touch_end\",\"x\":5,\"y\":6\x7d"]
    [⟨"touch_start", 1, 2⟩, ⟨"touch_move", 3, 4⟩, ⟨"touch_end", 5, 6⟩]
    (.cons ⟨[("type", .str "touch_start"), ("x", .num 1), ("y", .num 2)],
        rfl, rfl, Or.inl rfl, rfl, rfl⟩
      (.cons ⟨[("type", .str "touch_move"), ("x", .num 3), ("y", .num 4)],
          rfl, rfl, Or.inr (Or.inl rfl), rfl, rfl⟩
        (.cons ⟨[("type", .str "touch_end"), ("x", .num 5), ("y", .num 6)],
            rfl, rfl, Or.inr (Or.inr rfl), rfl, rfl⟩ .nil)))).trans rfl

/-- C2: a malformed line (not valid JSON, missing a required field, or
an unrecognised type) contributes no event, records a diagnostic, and
does not terminate the stream: the events are exactly those of the same
feed without the malformed line, and the run still ends in clean EOF. -/
theorem C2_malformed_line_is_isolated (pre post : List String) (bad : String)
    (hpre : ∀ l ∈ pre, l ≠ "") (hpost : ∀ l ∈ post, l ≠ "")
    (hbad : MalformedLine bad) :
    (runBridge (mkFeed (pre ++ bad :: post))).events =
      (runBridge (mkFeed (pre ++ post))).events ∧
    (processLine bad).2.isSome ∧
    (runBridge (mkFeed (pre ++ bad :: post))).diags =
      pre.filterMap (fun l => (processLine l).2)
        ++ (processLine bad).2.toList
        ++ post.filterMap (fun l => (processLine l).2) ∧
    (runBridge (mkFeed (pre ++ bad :: post))).exit = .closedEof := by
  have hb := processLine_of_malformed hbad
  have hbadne : bad ≠ "" := line_ne_of_strip hbad.1
  have h1 : ∀ l ∈ pre ++ bad :: post, l ≠ "" := by
    intro l hl
    rcases List.mem_append.mp hl with h | h
    · exact hpre l h
    · rcases List.mem_cons.mp h with h | h
      · exact h ▸ hbadne
      · exact hpost l h
  have h2 : ∀ l ∈ pre ++ post, l ≠ "" := by
    intro l hl
    rcases List.mem_append.mp hl with h | h
    · exact hpre l h
    · exact hpost l h
  obtain ⟨d, hd⟩ := Option.isSome_iff_exists.mp hb.2
  rw [mkFeed, mkFeed, runBridge_lines _ _ h1, runBridge_lines _ _ h2]
  refine ⟨?_, hb.2, ?_, rfl⟩
  · simp [List.filterMap_append, List.filterMap_cons, hb.1]
  · simp [List.filterMap_append, List.filterMap_cons, hd, runBridge]

/-- Witness: the spec's feed of one `not json` line between two valid
lines yields the same events as without it — exactly two events. -/
theorem C2_witness :
    (runBridge (mkFeed
      ["\x7b\"type\":\"touch_start\",\"x\":1,\"y\":2\x7d", "not json",
       "\x7b\"type\":\"touch_end\",\"x\":5,\"y\":6\x7d"])).events =
      (runBridge (mkFeed
        ["\x7b\"type\":\"touch_start\",\"x\":1,\"y\":2\x7d",
         "\x7b\"type\":\"touch_end\",\"x\":5,\"y\":6\x7d"])).events ∧
    (runBridge (mkFeed
      ["\x7b\"type\":\"touch_start\",\"x\":1,\"y\":2\x7d", "not json",
       "\x7b\"type\":\"touch_end\",\"x\":5,\"y\":6\x7d"])).events.length = 2 :=
  ⟨(C2_malformed_line_is_isolated
      ["\x7b\"type\":\"touch_start\",\"x\":1,\"y\":2\x7d"]
      ["\x7b\"type\":\"touch_end\",\"x\":5,\"y\":6\x7d"]
      "not json" (by decide) (by decide) ⟨by decide, Or.inl rfl⟩).1,
   by decide⟩

theorem convert_ok_isPress {j : Json} {e : HIDEvent}
    (h : convertTouchEventToHid j = .ok e) : e.isPress = true := by
  cases j <;> simp only [convertTouchEventToHid] at h <;> repeat' split at h
  all_goals cases h
  all_goals rfl

theorem processLine_fst_isPress {s : String} {e : HIDEvent}
    (h : (processLine s).1 = some e) : e.isPress = true := by
  by_cases hs : pyStrip s = ""
  · simp [processLine, hs] at h
  · cases hload : jsonLoads (pyStrip s) with
    | none => simp [processLine, hs, hload] at h
    | some j =>
      cases hconv : convertTouchEventToHid j with
      | error m => simp [processLine, hs, hload, hconv] at h
      | ok ev =>
        have hev : ev = e := by
          simpa [processLine, hs, hload, hconv] using h
        exact hev ▸ convert_ok_isPress hconv

/-- C3: every event the bridge ever emits, on any feed, is a `Press`;
no `Delay` event is ever synthesized. -/
theorem C3_bridge_never_emits_delay (feed : List ReadItem) (e : HIDEvent)
    (he : e ∈ (runBridge feed).events) : e.isPress = true := by
  induction feed with
  | nil => simp [runBridge] at he
  | cons item rest ih =>
    cases item with
    | fault => simp [runBridge] at he
    | line s =>
      by_cases hs : s = ""
      · subst hs
        simp [runBridge] at he
      · rw [runBridge_cons_line hs] at he
        rcases List.mem_append.mp he with h | h
        · cases hp : (processLine s).1 with
          | none => rw [hp] at h; cases h
          | some ev =>
            rw [hp] at h
            rcases List.mem_singleton.mp h with rfl
            exact processLine_fst_isPress hp
        · exact ih h

/-- Witness: the press event emitted for a concrete `touch_end` line is
a `Press`. -/
theorem C3_witness :
    (HIDEvent.press (.touch ⟨7, 8⟩) .up).isPress = true :=
  C3_bridge_never_emits_delay
    (mkFeed ["\x7b\"type\":\"touch_end\",\"x\":7,\"y\":8\x7d"])
    (HIDEvent.press (.touch ⟨7, 8⟩) .up) (by decide)

theorem processLine_snd_ne_readError (s : String) :
    (processLine s).2 ≠ some .readError := by
  by_cases hs : pyStrip s = ""
  · simp [processLine, hs]
  · cases hload : jsonLoads (pyStrip s) with
    | none => simp [processLine, hs, hload]
    | some j =>
      cases hconv : convertTouchEventToHid j with
      | error m => simp [processLine, hs, hload, hconv]
      | ok ev => simp [processLine, hs, hload, hconv]

theorem readError_not_in_lineDiags (lines : List String) :
    Diag.readError ∉ lines.filterMap (fun s => (processLine s).2) := by
  intro hmem
  rw [List.mem_filterMap] at hmem
  obtain ⟨s, -, hs⟩ := hmem
  exact processLine_snd_ne_readError s hs

/-- C4: on end-of-input the bridge terminates cleanly: anything after
the EOF read is never consumed, the run ends in the closed state, and no
read-fault diagnostic is raised. -/
theorem C4_eof_is_clean_termination (lines : List String)
    (junk : List ReadItem) (h : ∀ l ∈ lines, l ≠ "") :
    runBridge (lines.map .line ++ .line "" :: junk) =
      runBridge (mkFeed lines) ∧
    (runBridge (mkFeed lines)).exit = .closedEof ∧
    Diag.readError ∉ (runBridge (mkFeed lines)).diags := by
  rw [mkFeed, runBridge_lines _ _ h, runBridge_lines _ _ h]
  refine ⟨rfl, rfl, fun hmem => readError_not_in_lineDiags lines ?_⟩
  simpa [runBridge] using hmem

/-- Witness: a feed that reaches EOF ignores everything after it, ends
closed, and records no read fault. -/
theorem C4_witness :
    runBridge ([ReadItem.line "\x7b\"type\":\"touch_start\",\"x\":1,\"y\":2\x7d"]
        ++ .line "" :: [.line "\x7b\"type\":\"touch_end\",\"x\":5,\"y\":6\x7d", .fault]) =
      runBridge (mkFeed ["\x7b\"type\":\"touch_start\",\"x\":1,\"y\":2\x7d"]) ∧
    (runBridge (mkFeed ["\x7b\"type\":\"touch_start\",\"x\":1,\"y\":2\x7d"])).exit
      = .closedEof ∧
    Diag.readError ∉
      (runBridge (mkFeed ["\x7b\"type\":\"touch_start\",\"x\":1,\"y\":2\x7d"])).diags :=
  C4_eof_is_clean_termination ["\x7b\"type\":\"touch_start\",\"x\":1,\"y\":2\x7d"]
    [.line "\x7b\"type\":\"touch_end\",\"x\":5,\"y\":6\x7d", .fault] (by decide)

/-- C5: a read fault on the external feed terminates the stream: the
events already emitted are exactly those of the feed up to the fault,
nothing after the fault is consumed (no retry), exactly one read-fault
diagnostic is surfaced, and the run ends in the fault-closed state — a
returned value, not a thrown error. -/
theorem C5_read_fault_terminates_without_retry (lines : List String)
    (junk : List ReadItem) (h : ∀ l ∈ lines, l ≠ "") :
    runBridge (lines.map .line ++ .fault :: junk) =
      runBridge (lines.map .line ++ [.fault]) ∧
    (runBridge (lines.map .line ++ [.fault])).events =
      (runBridge (mkFeed lines)).events ∧
    (runBridge (lines.map .line ++ [.fault])).diags =
      (runBridge (mkFeed lines)).diags ++ [.readError] ∧
    ((runBridge (lines.map .line ++ [.fault])).diags).count .readError = 1 ∧
    (runBridge (lines.map .line ++ [.fault])).exit = .closedFault := by
  rw [mkFeed, runBridge_lines _ _ h, runBridge_lines _ _ h,
      runBridge_lines _ _ h]
  refine ⟨rfl, by simp [runBridge], by simp [runBridge], ?_, rfl⟩
  have hcount : (lines.filterMap (fun s => (processLine s).2)).count
      Diag.readError = 0 :=
    List.count_eq_zero.mpr (readError_not_in_lineDiags lines)
  simp [runBridge, List.count_append, hcount]

/-- Witness: a fault after one valid line keeps that line's event,
ignores later items, and surfaces one read-fault diagnostic. -/
theorem C5_witness :
    runBridge ([ReadItem.line "\x7b\"type\":\"touch_start\",\"x\":1,\"y\":2\x7d"]
        ++ .fault :: [.line "\x7b\"type\":\"touch_end\",\"x\":5,\"y\":6\x7d"]) =
      runBridge ([ReadItem.line "\x7b\"type\":\"touch_start\",\"x\":1,\"y\":2\x7d"]
        ++ [.fault]) ∧
    (runBridge ([ReadItem.line "\x7b\"type\":\"touch_start\",\"x\":1,\"y\":2\x7d"]
        ++ [.fault])).events =
      (runBridge (mkFeed ["\x7b\"type\":\"touch_start\",\"x\":1,\"y\":2\x7d"])).events ∧
    (runBridge ([ReadItem.line "\x7b\"type\":\"touch_start\",\"x\":1,\"y\":2\x7d"]
        ++ [.fault])).diags =
      (runBridge (mkFeed ["\x7b\"type\":\"touch_start\",\"x\":1,\"y\":2\x7d"])).diags
        ++ [.readError] ∧
    ((runBridge ([ReadItem.line "\x7b\"type\":\"touch_start\",\"x\":1,\"y\":2\x7d"]
        ++ [.fault])).diags).count .readError = 1 ∧
    (runBridge ([ReadItem.line "\x7b\"type\":\"touch_start\",\"x\":1,\"y\":2\x7d"]
        ++ [.fault])).exit = .closedFault :=
  C5_read_fault_terminates_without_retry
    ["\x7b\"type\":\"touch_start\",\"x\":1,\"y\":2\x7d"]
    [.line "\x7b\"type\":\"touch_end\",\"x\":5,\"y\":6\x7d"] (by decide)

/-- C9: a line that strips to the empty string (but is not the EOF
marker) is skipped silently: no event, no diagnostic, and the run
continues exactly as if the line were absent. -/
theorem C9_blank_line_silently_skipped (s : String) (hs : s ≠ "")
    (hb : pyStrip s = "") (rest : List ReadItem) :
    runBridge (.line s :: rest) = runBridge rest := by
  rw [runBridge_cons_line hs]
  simp [processLine, hb]

/-- Witness: a whitespace-only line before a valid line leaves the run
unchanged. -/
theorem C9_witness :
    runBridge (.line " \t " ::
        mkFeed ["\x7b\"type\":\"touch_end\",\"x\":5,\"y\":6\x7d"]) =
      runBridge (mkFeed ["\x7b\"type\":\"touch_end\",\"x\":5,\"y\":6\x7d"]) :=
  C9_blank_line_silently_skipped " \t " (by decide) (by decide) _

/-- C10: for a decoded object with a recognised type, any `x`/`y` value
that Python `float` accepts (numbers, booleans, numeric strings) yields
a press at the coerced point; if coercion fails, the line becomes a
per-line fault: a conversion diagnostic is recorded and the run
continues with the rest of the feed. -/
theorem C10_float_coercion_semantics (s : String)
    (kvs : List (String × Json)) (t : String) (vx vy : Json)
    (hload : jsonLoads (pyStrip s) = some (.obj kvs))
    (ht : objGet kvs "type" = some (.str t))
    (htm : t = "touch_start" ∨ t = "touch_move" ∨ t = "touch_end")
    (hx : objGet kvs "x" = some vx) (hy : objGet kvs "y" = some vy) :
    (∀ qx qy, pyFloat vx = some qx → pyFloat vy = some qy →
      processLine s = (some (.press (.touch ⟨qx, qy⟩)
        (if t = "touch_end" then .up else .down)), none)) ∧
    ((pyFloat vx = none ∨ pyFloat vy = none) →
      processLine s = (none, some .failedConvert) ∧
      ∀ rest, runBridge (.line s :: rest) =
        ⟨(runBridge rest).events, .failedConvert :: (runBridge rest).diags,
         (runBridge rest).exit⟩) := by
  have hstrip := strip_ne_of_loads hload
  have hne := line_ne_of_strip hstrip
  constructor
  · intro qx qy hfx hfy
    unfold processLine
    rw [if_neg hstrip, hload]
    simp [convert_ok_of_fields ht htm hx hy hfx hfy]
  · intro hfail
    have herr : ∃ m, convertTouchEventToHid (.obj kvs) = .error m := by
      rcases hfail with hf | hf
      · exact ⟨"coordinate is not coercible to float",
          by simp [convertTouchEventToHid, ht, hx, hy, hf]⟩
      · cases hvx : pyFloat vx with
        | none =>
          exact ⟨"coordinate is not coercible to float",
            by simp [convertTouchEventToHid, ht, hx, hy, hvx]⟩
        | some qx =>
          exact ⟨"coordinate is not coercible to float",
            by simp [convertTouchEventToHid, ht, hx, hy, hvx, hf]⟩
    obtain ⟨m, hm⟩ := herr
    have hpl : processLine s = (none, some .failedConvert) := by
      unfold processLine
      rw [if_neg hstrip, hload]
      simp [hm]
    refine ⟨hpl, fun rest => ?_⟩
    rw [runBridge_cons_line hne, hpl]
    rfl

/-- Witness: a boolean `x` and a numeric-string `y` coerce and emit a
press at `(1, 2.5)`; a `null` coordinate makes the line a skipped
per-line fault. -/
theorem C10_witness :
    processLine "\x7b\"type\":\"touch_move\",\"x\":true,\"y\":\"2.5\"\x7d" =
      (some (.press (.touch ⟨1, mkRat 5 2⟩) .down), none) ∧
    processLine "\x7b\"type\":\"touch_start\",\"x\":null,\"y\":2\x7d" =
      (none, some .failedConvert) :=
  ⟨(C10_float_coercion_semantics
      "\x7b\"type\":\"touch_move\",\"x\":true,\"y\":\"2.5\"\x7d"
      [("type", .str "touch_move"), ("x", .bool true), ("y", .str "2.5")]
      "touch_move" (.bool true) (.str "2.5")
      rfl rfl (Or.inr (Or.inl rfl)) rfl rfl).1 1 (mkRat 5 2) rfl rfl,
   ((C10_float_coercion_semantics
      "\x7b\"type\":\"touch_start\",\"x\":null,\"y\":2\x7d"
      [("type", .str "touch_start"), ("x", .null), ("y", .num 2)]
      "touch_start" .null (.num 2)
      rfl rfl (Or.inl rfl) rfl rfl).2 (Or.inl rfl)).1⟩

/-- C7 counterexample: the claim that a negative key code is rejected
before the client is called is false — `int("-5")` succeeds and the
commands forward the negative code to the client unchanged. -/
theorem C7_counterexample :
    keyCommandRun "-5" none = some (ClientCall.key (-5) none) ∧
    keySequenceCommandRun ["-3"] = some (.keySequence [-3]) ∧
    (-5 : Int) < 0 := by
  decide

/-- C7 amended: the key and key-sequence commands accept exactly the
integer tokens (as Python `int` parses them), with no range validation
at all: every parsed integer, negative ones included, is passed
unchanged to the client. -/
theorem C7_amended_all_integers_forwarded (tok : String) (k : Int)
    (d : Option ℚ) (toks : List String) (ks : List Int)
    (h1 : pyIntOfString tok = some k)
    (h2 : toks.mapM pyIntOfString = some ks) :
    keyCommandRun tok d = some (.key k d) ∧
    keySequenceCommandRun toks = some (.keySequence ks) := by
  refine ⟨by simp [keyCommandRun, h1], ?_⟩
  unfold keySequenceCommandRun
  rw [h2]
  rfl

/-- Witness: the commands forward `-5` and `[7, -3]` to the client. -/
theorem C7_witness :
    keyCommandRun "-5" none = some (.key (-5) none) ∧
    keySequenceCommandRun ["7", "-3"] = some (.keySequence [7, -3]) :=
  C7_amended_all_integers_forwarded "-5" (-5) none ["7", "-3"] [7, -3]
    (by decide) (by decide)

theorem applyPresetEntry_override (a : VideoArgs) (cfg : List (String × CVal))
    (kv : String × CVal)
    (h : underToHyphen kv.1 ∉ nsAttrNames
        ∨ nsGet a (underToHyphen kv.1) = dictGet cfg kv.1) :
    applyPresetEntry a cfg kv = dictSet cfg kv.1 kv.2 := if_pos h

theorem buildStreamConfig_streaming (a : VideoArgs)
    (h : a.preset = some "streaming") :
    buildStreamConfig a =
      [("fps", .int 30), ("format", .str a.format),
       ("compression_quality", .float (mkRat 4 5)),
       ("scale_factor", .float a.scale_factor),
       ("keyframe_interval", .int 30),
       ("h264_profile", .str "baseline"),
       ("max_bitrate", .int 4000), ("buffer_size", .int 2000),
       ("allow_frame_reordering", .bool false),
       ("realtime_optimization", .bool true)] := by
  unfold buildStreamConfig
  rw [h]
  show (presetConfig "streaming").foldl (applyPresetEntry a)
    (initialConfig a) = _
  rw [show presetConfig "streaming" =
    [("fps", .int 30), ("keyframe_interval", .int 30),
     ("h264_profile", .str "baseline"), ("max_bitrate", .int 4000),
     ("buffer_size", .int 2000), ("compression_quality", .float (mkRat 4 5)),
     ("allow_frame_reordering", .bool false),
     ("realtime_optimization", .bool true)] from rfl]
  rw [List.foldl_cons,
      applyPresetEntry_override a (initialConfig a) ("fps", .int 30)
        (Or.inr rfl)]
  rw [List.foldl_cons, applyPresetEntry_override a _ _ (Or.inl (by decide))]
  rw [List.foldl_cons, applyPresetEntry_override a _ _ (Or.inl (by decide))]
  rw [List.foldl_cons, applyPresetEntry_override a _ _ (Or.inl (by decide))]
  rw [List.foldl_cons, applyPresetEntry_override a _ _ (Or.inl (by decide))]
  rw [List.foldl_cons, applyPresetEntry_override a _ _ (Or.inl (by decide))]
  rw [List.foldl_cons, applyPresetEntry_override a _ _ (Or.inl (by decide))]
  rw [List.foldl_cons, applyPresetEntry_override a _ _ (Or.inl (by decide))]
  rw [List.foldl_nil]
  rfl

theorem buildStreamConfig_low_latency (a : VideoArgs)
    (h : a.preset = some "low-latency") :
    buildStreamConfig a =
      [("fps", .int 60), ("format", .str a.format),
       ("compression_quality", .float (mkRat 7 10)),
       ("scale_factor", .float a.scale_factor),
       ("keyframe_interval", .int 15),
       ("h264_profile", .str "baseline"),
       ("max_bitrate", .int 6000), ("buffer_size", .int 1000),
       ("allow_frame_reordering", .bool false),
       ("realtime_optimization", .bool true)] := by
  unfold buildStreamConfig
  rw [h]
  show (presetConfig "low-latency").foldl (applyPresetEntry a)
    (initialConfig a) = _
  rw [show presetConfig "low-latency" =
    [("fps", .int 60), ("keyframe_interval", .int 15),
     ("h264_profile", .str "baseline"), ("max_bitrate", .int 6000),
     ("buffer_size", .int 1000), ("compression_quality", .float (mkRat 7 10)),
     ("allow_frame_reordering", .bool false),
     ("realtime_optimization", .bool true)] from rfl]
  rw [List.foldl_cons,
      applyPresetEntry_override a (initialConfig a) ("fps", .int 60)
        (Or.inr rfl)]
  rw [List.foldl_cons, applyPresetEntry_override a _ _ (Or.inl (by decide))]
  rw [List.foldl_cons, applyPresetEntry_override a _ _ (Or.inl (by decide))]
  rw [List.foldl_cons, applyPresetEntry_override a _ _ (Or.inl (by decide))]
  rw [List.foldl_cons, applyPresetEntry_override a _ _ (Or.inl (by decide))]
  rw [List.foldl_cons, applyPresetEntry_override a _ _ (Or.inl (by decide))]
  rw [List.foldl_cons, applyPresetEntry_override a _ _ (Or.inl (by decide))]
  rw [List.foldl_cons, applyPresetEntry_override a _ _ (Or.inl (by decide))]
  rw [List.foldl_nil]
  rfl

theorem buildStreamConfig_high_quality (a : VideoArgs)
    (h : a.preset = some "high-quality") :
    buildStreamConfig a =
      [("fps", .int 30), ("format", .str a.format),
       ("compression_quality", .float (mkRat 9 10)),
       ("scale_factor", .float a.scale_factor),
       ("keyframe_interval", .int 60),
       ("h264_profile", .str "high"),
       ("max_bitrate", .int 8000), ("buffer_size", .int 4000),
       ("allow_frame_reordering", .bool false),
       ("realtime_optimization", .bool true)] := by
  unfold buildStreamConfig
  rw [h]
  show (presetConfig "high-quality").foldl (applyPresetEntry a)
    (initialConfig a) = _
  rw [show presetConfig "high-quality" =
    [("fps", .int 30), ("keyframe_interval", .int 60),
     ("h264_profile", .str "high"), ("max_bitrate", .int 8000),
     ("buffer_size", .int 4000), ("compression_quality", .float (mkRat 9 10)),
     ("allow_frame_reordering", .bool false),
     ("realtime_optimization", .bool true)] from rfl]
  rw [List.foldl_cons,
      applyPresetEntry_override a (initialConfig a) ("fps", .int 30)
        (Or.inr rfl)]
  rw [List.foldl_cons, applyPresetEntry_override a _ _ (Or.inl (by decide))]
  rw [List.foldl_cons, applyPresetEntry_override a _ _ (Or.inl (by decide))]
  rw [List.foldl_cons, applyPresetEntry_override a _ _ (Or.inl (by decide))]
  rw [List.foldl_cons, applyPresetEntry_override a _ _ (Or.inl (by decide))]
  rw [List.foldl_cons, applyPresetEntry_override a _ _ (Or.inl (by decide))]
  rw [List.foldl_cons, applyPresetEntry_override a _ _ (Or.inl (by decide))]
  rw [List.foldl_cons, applyPresetEntry_override a _ _ (Or.inl (by decide))]
  rw [List.foldl_nil]
  rfl

/-- C8: when a preset is selected, every key listed in that preset ends
up holding the preset's value in the built configuration, for every
argument namespace — i.e. regardless of what the user set on the
command line: the override guard's condition is always satisfied. -/
theorem C8_preset_overrides_user_values (a : VideoArgs) (p : String)
    (hp : a.preset = some p)
    (hmem : p ∈ ["streaming", "low-latency", "high-quality"]) :
    ∀ k v, (k, v) ∈ presetConfig p → dictGet (buildStreamConfig a) k = v := by
  intro k v hkv
  simp only [List.mem_cons, List.not_mem_nil, or_false] at hmem
  rcases hmem with rfl | rfl | rfl
  · rw [buildStreamConfig_streaming a hp]
    fin_cases hkv <;> rfl
  · rw [buildStreamConfig_low_latency a hp]
    fin_cases hkv <;> rfl
  · rw [buildStreamConfig_high_quality a hp]
    fin_cases hkv <;> rfl

/-- Witness: with the streaming preset selected and a user-supplied
keyframe interval of 99, the built configuration still holds the
preset's 30. -/
theorem C8_witness :
    dictGet (buildStreamConfig
      ⟨some 24, "h264", mkRat 1 2, 1, 99, "main", 1234, 555, false, false,
       some "streaming", none⟩) "keyframe_interval" = .int 30 :=
  C8_preset_overrides_user_values _ "streaming" rfl (by decide)
    "keyframe_interval" (.int 30) (by decide)

theorem swipeDistance_horizontal : swipeDistance ⟨0, 0⟩ ⟨100, 0⟩ = 100 := by
  unfold swipeDistance
  norm_num
  rw [show (10000 : ℝ) = 100 ^ 2 by norm_num, Real.sqrt_sq (by norm_num)]

/-- C6 counterexample: at the spec's own example — `start = (0,0)`,
`end = (100,0)`, `delta = 25`, distance 100 — the interpolator yields 3
interior points while `floor(d / delta) = 4`, because the point of the
stated formula at `i = 4` coincides with the end point and is excluded;
so the claimed count of exactly `floor(d / delta)` points is false. -/
theorem C6_counterexample :
    (swipeInterpolate ⟨0, 0⟩ ⟨100, 0⟩ 25).length ≠
      ⌊swipeDistance ⟨0, 0⟩ ⟨100, 0⟩ / 25⌋₊ := by
  rw [swipeInterpolate, swipeDistance_horizontal]
  rw [if_neg (by norm_num)]
  rw [List.length_map, List.length_range]
  norm_num

/-- C6 amended: for `0 < delta < d`, the interpolator produces exactly
`⌈d / delta⌉ - 1` intermediate points (this equals `floor(d / delta)`
except when `delta` divides `d` exactly, where the formula's last point
would coincide with the end point and is excluded), the i-th point
being `start + t * (end - start)` with `t = (i + 1) * delta / d`, and
every parameter lies strictly between 0 and 1 (strictly interior
points, endpoints excluded). -/
theorem C6_amended_interpolator_count_and_points (s e : SwipePoint)
    (delta : ℝ) (hd : 0 < delta) (hlt : delta < swipeDistance s e) :
    (swipeInterpolate s e delta).length =
      ⌈swipeDistance s e / delta⌉₊ - 1 ∧
    (∀ i, i < (swipeInterpolate s e delta).length →
      (swipeInterpolate s e delta).getD i ⟨0, 0⟩ =
        swipeLerp s e (((i : ℝ) + 1) * delta / swipeDistance s e)) ∧
    (∀ i, i < (swipeInterpolate s e delta).length →
      0 < ((i : ℝ) + 1) * delta / swipeDistance s e ∧
      ((i : ℝ) + 1) * delta / swipeDistance s e < 1) := by
  have hcond : ¬(swipeDistance s e ≤ delta ∨ delta ≤ 0) := by
    push_neg
    exact ⟨hlt, hd⟩
  have hdpos : 0 < swipeDistance s e := lt_trans hd hlt
  have hlist : swipeInterpolate s e delta =
      (List.range (⌈swipeDistance s e / delta⌉₊ - 1)).map
        (fun (i : ℕ) =>
          swipeLerp s e (((i : ℝ) + 1) * delta / swipeDistance s e)) := by
    rw [swipeInterpolate, if_neg hcond]
  refine ⟨by rw [hlist]; simp, ?_, ?_⟩
  · intro i h
    rw [hlist] at h ⊢
    rw [List.length_map, List.length_range] at h
    rw [List.getD_eq_getElem _ _ (by simpa using h)]
    simp
  · intro i h
    rw [hlist, List.length_map, List.length_range] at h
    have hratio : (1 : ℝ) < swipeDistance s e / delta := (one_lt_div hd).mpr hlt
    have hc2 : 2 ≤ ⌈swipeDistance s e / delta⌉₊ := by
      have h1 : 1 < ⌈swipeDistance s e / delta⌉₊ :=
        Nat.lt_ceil.mpr (by exact_mod_cast hratio)
      omega
    constructor
    · positivity
    · rw [div_lt_one hdpos]
      have hceil : (⌈swipeDistance s e / delta⌉₊ : ℝ) - 1 <
          swipeDistance s e / delta := by
        have h1 : (⌈swipeDistance s e / delta⌉₊ : ℝ) <
            swipeDistance s e / delta + 1 :=
          Nat.ceil_lt_add_one (by positivity)
        linarith
      have hile : (i : ℝ) + 1 ≤ (⌈swipeDistance s e / delta⌉₊ : ℝ) - 1 := by
        have h2 : i + 1 ≤ ⌈swipeDistance s e / delta⌉₊ - 1 := h
        have h3 : ((i + 1 : ℕ) : ℝ) ≤
            ((⌈swipeDistance s e / delta⌉₊ - 1 : ℕ) : ℝ) := Nat.cast_le.mpr h2
        rw [Nat.cast_sub (by omega)] at h3
        push_cast at h3
        linarith
      have hlt2 : (i : ℝ) + 1 < swipeDistance s e / delta :=
        lt_of_le_of_lt hile hceil
      calc ((i : ℝ) + 1) * delta
          < (swipeDistance s e / delta) * delta :=
            mul_lt_mul_of_pos_right hlt2 hd
        _ = swipeDistance s e := div_mul_cancel₀ _ (ne_of_gt hd)

/-- The spec's example evaluated: the three interior points. -/
theorem swipeInterpolate_spec_example :
    swipeInterpolate ⟨0, 0⟩ ⟨100, 0⟩ 25 = [⟨25, 0⟩, ⟨50, 0⟩, ⟨75, 0⟩] := by
  rw [swipeInterpolate, swipeDistance_horizontal, if_neg (by norm_num)]
  rw [show ⌈(100 : ℝ) / 25⌉₊ - 1 = 3 by norm_num]
  rw [show List.range 3 = [0, 1, 2] by rfl]
  simp [swipeLerp]
  norm_num

/-- Witness: at the spec's example the amended count theorem applies
and gives 3 points. -/
theorem C6_witness :
    0 < (25 : ℝ) ∧ 25 < swipeDistance ⟨0, 0⟩ ⟨100, 0⟩ ∧
    (swipeInterpolate ⟨0, 0⟩ ⟨100, 0⟩ 25).length =
      ⌈swipeDistance ⟨0, 0⟩ ⟨100, 0⟩ / 25⌉₊ - 1 ∧
    (swipeInterpolate ⟨0, 0⟩ ⟨100, 0⟩ 25).length = 3 :=
  ⟨by norm_num, by rw [swipeDistance_horizontal]; norm_num,
   (C6_amended_interpolator_count_and_points ⟨0, 0⟩ ⟨100, 0⟩ 25 (by norm_num)
      (by rw [swipeDistance_horizontal]; norm_num)).1,
   by rw [swipeInterpolate_spec_example]; rfl⟩
